import Mathlib

/-!
Verification of the jhub-apps control-plane core: the spawn-command
synthesizer, the git repository-configuration loader, and the
token-based authentication gate.  Python sources are embedded shallowly:
strings are Lean `String`s, optional values are `Option`, raised
`HTTPException`s become `Except` errors, and external collaborators
(the hub identity endpoint, the git runtime, the filesystem) are passed
in as explicit oracle arguments.
-/

namespace JHubApps

/-! ## Character-level substring machinery

Python's `pat in s` substring test is embedded as a scan over `List Char`.
-/

/-- `tokenAt pat l` holds when `pat` occurs at the head of `l`. -/
def tokenAt (pat l : List Char) : Bool :=
  decide (l.take pat.length = pat)

/-- `hasToken pat l` is the Python substring test `pat in l`. -/
def hasToken (pat : List Char) : List Char → Bool
  | [] => decide (pat = [])
  | c :: rest => tokenAt pat (c :: rest) || hasToken pat rest

/-- `strContains pat s` is Python's `pat in s` on strings. -/
def strContains (pat s : String) : Bool :=
  hasToken pat.data s.data

theorem hasToken_eq_false_of_not_mem (c0 : Char) (pat : List Char) :
    ∀ l : List Char, c0 ∈ pat → c0 ∉ l → hasToken pat l = false := by
  intro l
  induction l with
  | nil =>
    intro hp _
    have hne : pat ≠ [] := by
      rintro rfl
      exact List.not_mem_nil c0 hp
    simp [hasToken, hne]
  | cons c rest ih =>
    intro hp hl
    simp only [hasToken, Bool.or_eq_false_iff]
    refine ⟨?_, ih hp (fun h => hl (List.mem_cons_of_mem _ h))⟩
    simp only [tokenAt, decide_eq_false_iff_not]
    intro htake
    have hsub : pat ⊆ c :: rest := by
      rw [← htake]
      exact List.take_subset _ _
    exact hl (hsub hp)

/-! ## Decimal rendering of the port number -/

/-- One decimal digit character. -/
def digitChar : Nat → Char
  | 0 => '0' | 1 => '1' | 2 => '2' | 3 => '3' | 4 => '4'
  | 5 => '5' | 6 => '6' | 7 => '7' | 8 => '8' | _ => '9'

theorem digitChar_ne_brace (k : Nat) : digitChar k ≠ '{' := by
  unfold digitChar
  split <;> decide

/-- Decimal digit list of a natural number. -/
def natChars (n : Nat) : List Char :=
  if n < 10 then [digitChar n]
  else natChars (n / 10) ++ [digitChar (n % 10)]
decreasing_by exact Nat.div_lt_self (by omega) (by omega)

/-- Decimal string of a natural number (the rendering of `ctx.port`). -/
def natStr (n : Nat) : String := ⟨natChars n⟩

theorem natChars_ne_brace (n : Nat) : ∀ c ∈ natChars n, c ≠ '{' := by
  induction n using Nat.strong_induction_on with
  | _ n ih =>
    unfold natChars
    split
    · intro c hc
      rcases List.mem_singleton.mp hc with rfl
      exact digitChar_ne_brace n
    · intro c hc
      rcases List.mem_append.mp hc with h | h
      · exact ih (n / 10) (Nat.div_lt_self (by omega) (by omega)) c h
      · rcases List.mem_singleton.mp h with rfl
        exact digitChar_ne_brace (n % 10)

/-! ## Command Synthesizer

The synthesizer itself (`jhub_apps/spawner/command.py` and the spawner
subclass) is not part of the sources at hand; only its unit tests are.
Its definitions below are therefore modelled from the specification
(section 4.1, section 6 and section 8), as the rules for absent code
require.
-/

/-- Modelled from the spec: the closed Framework enumeration (section 3);
`custom` is the only variant whose command body is fully user-supplied. -/
inductive Framework where
  | python | streamlit | dash | voila | bokeh | panel | gradio | custom
deriving DecidableEq, Repr

/-- Modelled from the spec: the declarative app configuration record
(section 3).  `env` rides along to the environment-injection contract and
never reaches argv (section 4.1 step 5). -/
structure AppConfiguration where
  framework : Framework
  custom_command : Option String
  filepath : Option String
  conda_env : Option String
  skip_conda : Bool
  env : List (String × String)
deriving DecidableEq, Repr

/-- Modelled from the spec: the runtime spawn context (section 3),
supplied fresh by the spawner runtime and read-only to the synthesizer. -/
structure SpawnContext where
  port : Nat
  python_executable : String
  bind_url : String
  user_name : String
  user_id : Nat
  app_name : String
deriving DecidableEq, Repr

/-- Modelled from the spec: the synthesizer's failure taxonomy
(section 4.1 contract, section 7). -/
inductive SynthesisError where
  | configurationError (field : String)
  | invalidInput
deriving DecidableEq, Repr

/-- Modelled from the spec: a named substitution slot of a framework
template ("each variant maps to a fixed argv template with named
substitution slots", section 3). -/
inductive Piece where
  | lit : String → Piece
  | portSlot : Piece
  | pythonExecSlot : Piece
  | filepathSlot : Piece
deriving DecidableEq, Repr

def renderPiece (port : Nat) (pyexec fp : String) : Piece → String
  | .lit s => s
  | .portSlot => natStr port
  | .pythonExecSlot => pyexec
  | .filepathSlot => fp

def concatAll : List String → String
  | [] => ""
  | s :: rest => s ++ concatAll rest

/-- Render one template element: the concatenation of its pieces with
`{port}`, `{python_executable}` and `{filepath}` resolved (section 4.1
step 4). -/
def renderElem (port : Nat) (pyexec fp : String) (pieces : List Piece) : String :=
  concatAll (pieces.map (renderPiece port pyexec fp))

/-- Modelled from the spec: the Framework Registry (section 2).  The
built-in templates all launch through the python executable and carry a
single resolved port flag; `streamlit` uses a `--server.port=`-style
flag (section 8); the `custom` variant has no registry template. -/
def frameworkTemplate : Framework → List (List Piece)
  | .python => [[.pythonExecSlot], [.lit "-m"], [.lit "jupyter"],
      [.filepathSlot], [.lit "--port=", .portSlot]]
  | .streamlit => [[.pythonExecSlot], [.lit "-m"], [.lit "streamlit"],
      [.lit "run"], [.filepathSlot], [.lit "--server.port=", .portSlot]]
  | .dash => [[.pythonExecSlot], [.filepathSlot], [.lit "--port=", .portSlot]]
  | .voila => [[.pythonExecSlot], [.lit "-m"], [.lit "voila"],
      [.filepathSlot], [.lit "--port=", .portSlot]]
  | .bokeh => [[.pythonExecSlot], [.lit "-m"], [.lit "bokeh"],
      [.lit "serve"], [.filepathSlot], [.lit "--port=", .portSlot]]
  | .panel => [[.pythonExecSlot], [.lit "-m"], [.lit "panel"],
      [.lit "serve"], [.filepathSlot], [.lit "--port=", .portSlot]]
  | .gradio => [[.pythonExecSlot], [.filepathSlot], [.lit "--server-port=", .portSlot]]
  | .custom => []

/-- Modelled from the spec: the conda-activation sibling flag
(section 4.1 steps 2 and 3); `skip_conda` always wins, and an unset
`conda_env` emits nothing. -/
def condaArgs (config : AppConfiguration) : List String :=
  if config.skip_conda then []
  else
    match config.conda_env with
    | some name => ["--conda-env=" ++ name]
    | none => []

/-- Insert the conda flag between the launcher and the framework-specific
arguments (section 4.1 step 2 ordering). -/
def insertConda (conda rendered : List String) : List String :=
  match rendered with
  | [] => conda
  | launcher :: rest => launcher :: (conda ++ rest)

/-- Modelled from the spec: `synthesize` (section 4.1).  The custom path
wraps the literal `custom_command` as `/bin/sh -c <body>` with `\x7bport\x7d`
left unsubstituted (two-phase substitution, section 4.1 step 1); built-in
paths render the registry template with `\x7bport\x7d` resolved immediately.
An empty or missing `custom_command`, or a missing `filepath` for a
built-in framework, is a `configurationError` (section 4.1 edge cases). -/
def synthesize (config : AppConfiguration) (ctx : SpawnContext) :
    Except SynthesisError (List String) :=
  match config.framework with
  | .custom =>
    match config.custom_command with
    | none => .error (.configurationError "custom_command")
    | some cmd =>
      if cmd = "" then .error (.configurationError "custom_command")
      else .ok (condaArgs config ++ ["/bin/sh", "-c", cmd])
  | fw =>
    match config.filepath with
    | none => .error (.configurationError "filepath")
    | some fp =>
      .ok (insertConda (condaArgs config)
        ((frameworkTemplate fw).map (renderElem ctx.port ctx.python_executable fp)))

/-! ## Repository Configuration Loader

Translated from `src/jhub_apps/service/app_from_git.py`.  A raised
`HTTPException` becomes an `Except.error` carrying the status code and
detail; the git runtime and the filesystem are oracle arguments.
-/

/-- An HTTP error response, as raised by `HTTPException`. -/
structure HttpError where
  statusCode : Nat
  detail : String
deriving DecidableEq, Repr

/-- The `Repository` pydantic model (url, ref, config_directory). -/
structure Repository where
  url : String
  ref : Option String
  config_directory : String
deriving DecidableEq, Repr

/-- Characters legal inside a URL scheme after the leading letter
(`urllib.parse` accepts letters, digits, `+`, `-`, `.`). -/
def isSchemeChar (c : Char) : Bool :=
  c.isAlphanum || c = '+' || c = '-' || c = '.'

/-- The characters before the first `:`, or `none` when there is no
colon at all. -/
def splitColon : List Char → Option (List Char)
  | [] => none
  | c :: rest => if c = ':' then some [] else (splitColon rest).map (fun l => c :: l)

/-- The scheme component of `urlparse(url)`: the lowercased text before
the first `:`, provided it starts with a letter and uses only scheme
characters; otherwise the empty scheme. -/
def urlScheme (url : String) : String :=
  match splitColon url.data with
  | none => ""
  | some [] => ""
  | some (c :: rest) =>
    if c.isAlpha && (c :: rest).all isSchemeChar then ⟨(c :: rest).map Char.toLower⟩
    else ""

def allowedSchemes : List String := ["https", "http", "git", "ssh"]

/-- The URL injection characters rejected by `_validate_git_repository`:
`;`, `|`, `&`, `$`, backtick, newline, carriage return. -/
def badUrlChars : List Char := ";|&$`\n\r".data

/-- The character class of `^[\w\-./ ]+$` (ASCII reading of `\w`). -/
def refCharOk (c : Char) : Bool :=
  c.isAlphanum || c = '_' || c = '-' || c = '.' || c = '/' || c = ' '

def refCharClassOk (r : String) : Bool :=
  !r.data.isEmpty && r.data.all refCharOk

/-- The dangerous ref patterns rejected by `_validate_git_repository`. -/
def dangerousRefPatterns : List String :=
  [";", "|", "&", "$", "`", "../", "\n", "\r"]

def refDangerous (r : String) : Bool :=
  dangerousRefPatterns.any (fun p => strContains p r)

/-- `_validate_git_repository`: scheme allow-list, URL injection
characters, ref character class, ref dangerous patterns — in that
order, each failure a 400 response. -/
def validate_git_repository (repo : Repository) : Except HttpError Unit :=
  if !(allowedSchemes.contains (urlScheme repo.url)) then
    .error ⟨400, "Invalid URL scheme. Only https, http, git, ssh protocols are allowed."⟩
  else if badUrlChars.any (fun c => repo.url.data.contains c) then
    .error ⟨400, "Invalid characters in repository URL"⟩
  else
    match repo.ref with
    | none => .ok ()
    | some r =>
      if r = "" then .ok ()
      else if !refCharClassOk r then
        .error ⟨400, "Invalid branch or ref name. Only alphanumeric characters, dots, hyphens, underscores, and slashes are allowed."⟩
      else if refDangerous r then
        .error ⟨400, "Invalid characters in branch or ref name"⟩
      else .ok ()

/-- Outcome of the external `git.Repo.clone_from` call: success, a
`GitCommandError` with its message, a `TimeoutError`/`GitError`, or any
other exception. -/
inductive GitResult where
  | ok
  | commandError (msg : String)
  | gitError (msg : String)
  | otherError (msg : String)
deriving DecidableEq, Repr

/-- The exception-classification chain of `_clone_repo` (after
validation): auth failures → 401, missing repository → 404, missing
ref → 404, other command errors → 400, timeouts → 504, anything
else → 500. -/
def classifyGitFailure (repo : Repository) (res : GitResult) : Except HttpError Unit :=
  match res with
  | .ok => .ok ()
  | .commandError msg =>
    if strContains "Authentication failed" msg || strContains "fatal: could not read" msg then
      .error ⟨401, "Git authentication failed. Please check your credentials."⟩
    else if strContains "Repository not found" msg || strContains "does not exist" msg then
      .error ⟨404, "Repository not found: " ++ repo.url⟩
    else if (match repo.ref with | some r => !(r = "") | none => false)
        && (strContains "unknown revision" msg || strContains "not found" msg) then
      .error ⟨404, "Branch or ref not found in repository"⟩
    else
      .error ⟨400, "Failed to clone repository. Please verify the repository URL is correct."⟩
  | .gitError _ =>
    .error ⟨504, "Git clone operation timed out. The repository may be too large or the server is unreachable."⟩
  | .otherError _ =>
    .error ⟨500, "An unexpected error occurred while cloning the repository."⟩

/-- `_clone_repo`: validate first, then clone and classify any failure.
`gitOutcome` is the external git runtime's behavior on this repository. -/
def clone_repo (repo : Repository) (gitOutcome : GitResult) : Except HttpError Unit :=
  match validate_git_repository repo with
  | .error e => .error e
  | .ok _ => classifyGitFailure repo gitOutcome

/-- `_check_conda_project_config_directory_exists`: a missing config
directory raises a 400 Bad Request (not a 404). `dirExists` is the
filesystem oracle for `(temp_dir / config_directory).exists()`. -/
def check_conda_project_config_directory_exists
    (repo : Repository) (dirExists : Bool) : Except HttpError Unit :=
  if dirExists then .ok ()
  else .error ⟨400, "Path '" ++ repo.config_directory ++ "' doesn't exists in the repository."⟩

/-- The loader pipeline of `_get_app_configuration_from_git`, up to the
config-directory check; the later YAML-extraction stages are outside the
claims' scope and are elided as a successful unit. -/
def load_app_config (repo : Repository) (gitOutcome : GitResult) (dirExists : Bool) :
    Except HttpError Unit :=
  match clone_repo repo gitOutcome with
  | .error e => .error e
  | .ok _ => check_conda_project_config_directory_exists repo dirExists

/-! ## Authentication Gate

Translated from `src/jhub_apps/service/get_current_user` in
`security.py`, together with the FastAPI credential extractors it
declares.  `auth_by_param` and `auth_by_header` are constructed with
`auto_error=False` (absent credential yields `None`); `auth_by_cookie`
keeps the default `auto_error=True`, so a request without the primary
session cookie is rejected with 403 "Not authenticated" during
dependency resolution, before the function body runs.  The deprecated
cookie's `Security` parameter is commented out in the source, so the
final fallback of the `or`-chain is the `auth_by_cookie_deprecated`
extractor *object* itself, never that cookie's value.
-/

/-- A Python value flowing through the token-selection `or`-chain:
`None`, a string, or the `auth_by_cookie_deprecated` extractor object. -/
inductive PyVal where
  | none
  | str (s : String)
  | extractorObj
deriving DecidableEq, Repr

/-- Python truthiness on these values: `None` and `""` are falsy, any
other string and the extractor object are truthy. -/
def PyVal.truthy : PyVal → Bool
  | .none => false
  | .str s => !(s = "")
  | .extractorObj => true

/-- Python's `a or b`: the first truthy operand, else the last. -/
def pyOr (a b : PyVal) : PyVal :=
  if a.truthy then a else b

/-- The line `token = auth_param or auth_header or auth_cookie or
auth_by_cookie_deprecated`. -/
def selectToken (p h c : PyVal) : PyVal :=
  pyOr p (pyOr h (pyOr c PyVal.extractorObj))

/-- The hub user model (`models.User`): name, scope set, and the
JupyterHub-5 share permissions filled in after the identity exchange. -/
structure User where
  name : String
  scopes : List String
  sharePermissions : Option (List String)
deriving DecidableEq, Repr

/-- The parsed response of the hub identity exchange
(`GET /user` with the end user's bearer token). -/
structure HubResponse where
  status : Nat
  user : User
deriving DecidableEq, Repr

/-- `httpx` `resp.is_error`: any 4xx or 5xx status. -/
def HubResponse.isError (r : HubResponse) : Bool :=
  400 ≤ r.status && r.status ≤ 599

/-- The failure modes of the gate, with their HTTP status codes. -/
inductive AuthFailure where
  | missingCookie
  | mustLogin
  | unauthenticated
  | unauthorized
deriving DecidableEq, Repr

def AuthFailure.status : AuthFailure → Nat
  | .missingCookie => 403
  | .mustLogin => 401
  | .unauthenticated => 401
  | .unauthorized => 403

/-- The `access_scopes` module variable: the JSON override from
`JUPYTERHUB_OAUTH_SCOPES` when configured, else `["access:services"]`. -/
def accessScopes (envOverride : Option (List String)) : List String :=
  match envOverride with
  | some scopes => scopes
  | none => ["access:services"]

/-- An inbound request's credential-bearing locations: the `token` query
parameter, the `Authorization` header, and the two session cookies. -/
structure Request where
  queryToken : Option String
  authorizationHeader : Option String
  cookiePrimary : Option String
  cookieDeprecated : Option String
deriving DecidableEq, Repr

/-- FastAPI `APIKeyQuery(auto_error=False)`: the parameter's value, with
an absent or empty value yielding `None`. -/
def apiKeyQuery (q : Option String) : PyVal :=
  match q with
  | some s => if s = "" then PyVal.none else PyVal.str s
  | none => PyVal.none

/-- `get_authorization_scheme_param`: partition the header at the first
space into scheme and parameter. -/
def schemeAndParam (authorization : String) : String × String :=
  match authorization.splitOn " " with
  | [] => ("", "")
  | [s] => (s, "")
  | s :: rest => (s, " ".intercalate rest)

/-- FastAPI `OAuth2AuthorizationCodeBearer(auto_error=False)`: the token
after a case-insensitive `Bearer` scheme, else `None`. -/
def oauth2Bearer (authorization : Option String) : PyVal :=
  match authorization with
  | none => PyVal.none
  | some a =>
    if a = "" then PyVal.none
    else if !((schemeAndParam a).1.toLower = "bearer") then PyVal.none
    else PyVal.str (schemeAndParam a).2

/-- FastAPI `APIKeyCookie` with the default `auto_error=True`: an absent
or empty cookie aborts dependency resolution with 403. -/
def apiKeyCookie (c : Option String) : Except AuthFailure String :=
  match c with
  | none => .error .missingCookie
  | some s => if s = "" then .error .missingCookie else .ok s

/-- Apply `_get_jhub_token_from_jwt_token` (from the service's auth
module, outside the sources at hand; `unwrap` is its behavior on
strings, modelled from the spec sentence "token may itself be wrapped in
an internal signed-assertion format; if so it is unwrapped").  A
non-string value passes through. -/
def unwrapVal (unwrap : String → String) : PyVal → PyVal
  | .str s => .str (unwrap s)
  | v => v

/-- The lines `user = User(**resp.json())` and, under JupyterHub 5,
`user.share_permissions = get_users_and_group_allowed_to_share_with(user)`. -/
def finalizeUser (jh5 : Bool) (share : User → List String) (u : User) : User :=
  if jh5 then { u with sharePermissions := some (share u) } else u

/-- The body of `get_current_user`, after FastAPI has resolved the three
`Security` parameters.  `hub` is the identity endpoint's response to a
given bearer value; `jh5`/`share` model `is_jupyterhub_5` and
`get_users_and_group_allowed_to_share_with`. -/
def get_current_user_body (unwrap : String → String) (hub : PyVal → HubResponse)
    (jh5 : Bool) (share : User → List String) (envOverride : Option (List String))
    (authParam authHeader authCookie : PyVal) : Except AuthFailure User :=
  let token := selectToken authParam authHeader authCookie
  if token = PyVal.none then .error .mustLogin
  else
    let token2 := unwrapVal unwrap token
    let resp := hub token2
    if resp.isError then .error .unauthenticated
    else
      let user2 := finalizeUser jh5 share resp.user
      if (accessScopes envOverride).any (fun s => user2.scopes.contains s) then .ok user2
      else .error .unauthorized

/-- `get_current_user` at the request level: dependency resolution of
the three extractors (the cookie one may abort with 403), then the
function body. -/
def get_current_user (unwrap : String → String) (hub : PyVal → HubResponse)
    (jh5 : Bool) (share : User → List String) (envOverride : Option (List String))
    (req : Request) : Except AuthFailure User :=
  match apiKeyCookie req.cookiePrimary with
  | .error e => .error e
  | .ok c =>
    get_current_user_body unwrap hub jh5 share envOverride
      (apiKeyQuery req.queryToken) (oauth2Bearer req.authorizationHeader) (PyVal.str c)

/-! ## Helper lemmas about the authentication gate -/

theorem pyOr_ne_none (a b : PyVal) (hb : b ≠ PyVal.none) : pyOr a b ≠ PyVal.none := by
  unfold pyOr
  split
  · rename_i ht
    intro heq
    rw [heq] at ht
    simp [PyVal.truthy] at ht
  · exact hb

theorem selectToken_ne_none (p h c : PyVal) : selectToken p h c ≠ PyVal.none :=
  pyOr_ne_none _ _ (pyOr_ne_none _ _ (pyOr_ne_none _ _ (fun h => PyVal.noConfusion h)))

theorem get_current_user_cookie_absent (unwrap : String → String)
    (hub : PyVal → HubResponse) (jh5 : Bool) (share : User → List String)
    (ov : Option (List String)) (req : Request)
    (hck : req.cookiePrimary = none) :
    get_current_user unwrap hub jh5 share ov req = .error .missingCookie := by
  simp [get_current_user, hck, apiKeyCookie]

theorem get_current_user_cookie_ok (unwrap : String → String)
    (hub : PyVal → HubResponse) (jh5 : Bool) (share : User → List String)
    (ov : Option (List String)) (req : Request) (ck : String)
    (hck : req.cookiePrimary = some ck) (hckne : ck ≠ "") :
    get_current_user unwrap hub jh5 share ov req =
      get_current_user_body unwrap hub jh5 share ov
        (apiKeyQuery req.queryToken) (oauth2Bearer req.authorizationHeader)
        (PyVal.str ck) := by
  simp [get_current_user, hck, apiKeyCookie, hckne]

theorem finalizeUser_scopes (jh5 : Bool) (share : User → List String) (u : User) :
    (finalizeUser jh5 share u).scopes = u.scopes := by
  cases jh5 <;> simp [finalizeUser]

theorem body_of_hub_error (unwrap : String → String) (hub : PyVal → HubResponse)
    (jh5 : Bool) (share : User → List String) (ov : Option (List String))
    (p h c : PyVal)
    (hbad : (hub (unwrapVal unwrap (selectToken p h c))).isError = true) :
    get_current_user_body unwrap hub jh5 share ov p h c = .error .unauthenticated := by
  simp only [get_current_user_body]
  rw [if_neg (selectToken_ne_none p h c)]
  simp [hbad]

theorem body_ne_mustLogin (unwrap : String → String) (hub : PyVal → HubResponse)
    (jh5 : Bool) (share : User → List String) (ov : Option (List String))
    (p h c : PyVal) :
    get_current_user_body unwrap hub jh5 share ov p h c ≠ .error .mustLogin := by
  simp only [get_current_user_body]
  rw [if_neg (selectToken_ne_none p h c)]
  split
  · simp
  · split <;> simp

theorem get_current_user_ne_mustLogin (unwrap : String → String)
    (hub : PyVal → HubResponse) (jh5 : Bool) (share : User → List String)
    (ov : Option (List String)) (req : Request) :
    get_current_user unwrap hub jh5 share ov req ≠ .error .mustLogin := by
  unfold get_current_user apiKeyCookie
  cases req.cookiePrimary with
  | none => simp
  | some s =>
    by_cases hs : s = ""
    · simp [hs]
    · simp only [hs, if_false, reduceIte]
      exact body_ne_mustLogin _ _ _ _ _ _ _ _

/-! ## Concrete fixtures for witnesses and counterexamples -/

def demoUser : User := ⟨"alice", ["access:services"], none⟩

def hubAlwaysOk : PyVal → HubResponse := fun _ => ⟨200, demoUser⟩

def hubAccepts (good : String) : PyVal → HubResponse :=
  fun t => if t = PyVal.str good then ⟨200, demoUser⟩ else ⟨403, demoUser⟩

def noShare : User → List String := fun _ => []

/-! ## Claim theorems: authentication gate -/

/-- C9: `auth_by_cookie` is constructed without `auto_error=False`, so a
request lacking the primary session cookie is rejected with 403 during
credential extraction, before token selection, regardless of any query
or header token present. -/
theorem missing_cookie_rejected_403 (unwrap : String → String)
    (hub : PyVal → HubResponse) (jh5 : Bool) (share : User → List String)
    (ov : Option (List String)) (req : Request)
    (hck : req.cookiePrimary = none) :
    get_current_user unwrap hub jh5 share ov req = .error .missingCookie ∧
      AuthFailure.missingCookie.status = 403 :=
  ⟨get_current_user_cookie_absent unwrap hub jh5 share ov req hck, rfl⟩

theorem missing_cookie_rejected_403_witness :
    get_current_user id hubAlwaysOk false noShare none
        ⟨some "sometoken", some "Bearer other", none, none⟩ =
      .error .missingCookie ∧ AuthFailure.missingCookie.status = 403 :=
  missing_cookie_rejected_403 id hubAlwaysOk false noShare none
    ⟨some "sometoken", some "Bearer other", none, none⟩ rfl

/-- C10 counterexample: a request with no credential in any location does
not proceed to the hub identity exchange — even against a hub that
accepts every token and a user that passes the scope check, the result
is the extractor's 403, not a success. -/
theorem no_credential_rejected_before_exchange :
    get_current_user id hubAlwaysOk false noShare none ⟨none, none, none, none⟩ =
        .error .missingCookie ∧
      (Except.error AuthFailure.missingCookie ≠
        (Except.ok demoUser : Except AuthFailure User)) :=
  ⟨rfl, fun h => Except.noConfusion h⟩

/-- C10 amended: the or-chain's final fallback is the deprecated-cookie
extractor object, so the selected token is never `None` and the 401
"Must login" branch is unreachable; but a request with no credential in
any location is rejected with the extractor's 403 before the identity
exchange, not forwarded to it. -/
theorem token_never_none :
    (∀ p h c : PyVal, selectToken p h c ≠ PyVal.none) ∧
    (∀ (unwrap : String → String) (hub : PyVal → HubResponse) (jh5 : Bool)
        (share : User → List String) (ov : Option (List String)) (req : Request),
      get_current_user unwrap hub jh5 share ov req ≠ .error .mustLogin) ∧
    (∀ (unwrap : String → String) (hub : PyVal → HubResponse) (jh5 : Bool)
        (share : User → List String) (ov : Option (List String)) (req : Request),
      req.cookiePrimary = none →
      get_current_user unwrap hub jh5 share ov req = .error .missingCookie) :=
  ⟨selectToken_ne_none,
   get_current_user_ne_mustLogin,
   fun unwrap hub jh5 share ov req hck =>
     get_current_user_cookie_absent unwrap hub jh5 share ov req hck⟩

theorem token_never_none_witness :
    selectToken PyVal.none PyVal.none PyVal.none ≠ PyVal.none ∧
    get_current_user id hubAlwaysOk false noShare none ⟨none, none, none, none⟩ ≠
      .error .mustLogin ∧
    get_current_user id hubAlwaysOk false noShare none ⟨none, none, none, none⟩ =
      .error .missingCookie :=
  ⟨token_never_none.1 PyVal.none PyVal.none PyVal.none,
   token_never_none.2.1 id hubAlwaysOk false noShare none ⟨none, none, none, none⟩,
   token_never_none.2.2 id hubAlwaysOk false noShare none ⟨none, none, none, none⟩ rfl⟩

/-- C2 counterexample: with a query token and a header token supplied but
no primary session cookie, an invalid query token does not yield
`Unauthenticated` (401) — the request is rejected with the cookie
extractor's 403 instead. -/
theorem invalid_query_without_cookie_yields_forbidden :
    get_current_user id (hubAccepts "goodtoken") false noShare none
        ⟨some "badtoken", some "Bearer goodtoken", none, none⟩ =
      .error .missingCookie ∧
    AuthFailure.missingCookie ≠ AuthFailure.unauthenticated ∧
    AuthFailure.missingCookie.status = 403 :=
  ⟨rfl, fun h => AuthFailure.noConfusion h, rfl⟩

/-- C2 amended: for every request that carries a non-empty primary
session cookie, the credential is selected in strict priority order by
the or-chain (first truthy source wins), and a selected-but-invalid
query token yields `Unauthenticated` with no fallback to the header
token or the cookie. -/
theorem query_priority_no_fallback :
    (∀ p h c : PyVal, p.truthy = true → selectToken p h c = p) ∧
    (∀ p h c : PyVal, p.truthy = false → h.truthy = true → selectToken p h c = h) ∧
    (∀ p h c : PyVal, p.truthy = false → h.truthy = false → c.truthy = true →
      selectToken p h c = c) ∧
    (∀ (unwrap : String → String) (hub : PyVal → HubResponse) (jh5 : Bool)
        (share : User → List String) (ov : Option (List String)) (req : Request)
        (q ck : String),
      req.cookiePrimary = some ck → ck ≠ "" →
      req.queryToken = some q → q ≠ "" →
      (hub (PyVal.str (unwrap q))).isError = true →
      get_current_user unwrap hub jh5 share ov req = .error .unauthenticated ∧
        AuthFailure.unauthenticated.status = 401) := by
  refine ⟨?_, ?_, ?_, ?_⟩
  · intro p h c hp
    simp [selectToken, pyOr, hp]
  · intro p h c hp hh
    simp [selectToken, pyOr, hp, hh]
  · intro p h c hp hh hc
    simp [selectToken, pyOr, hp, hh, hc]
  · intro unwrap hub jh5 share ov req q ck hck hckne hq hqne hbad
    refine ⟨?_, rfl⟩
    rw [get_current_user_cookie_ok unwrap hub jh5 share ov req ck hck hckne]
    have hsel : selectToken (apiKeyQuery req.queryToken)
        (oauth2Bearer req.authorizationHeader) (PyVal.str ck) = PyVal.str q := by
      simp [hq, apiKeyQuery, hqne, selectToken, pyOr, PyVal.truthy]
    refine body_of_hub_error unwrap hub jh5 share ov _ _ _ ?_
    rw [hsel]
    exact hbad

theorem query_priority_no_fallback_witness :
    selectToken (PyVal.str "a") (PyVal.str "b") (PyVal.str "c") = PyVal.str "a" ∧
    (get_current_user id (hubAccepts "goodtoken") false noShare none
        ⟨some "badtoken", some "Bearer goodtoken", some "cookieval", none⟩ =
      .error .unauthenticated ∧ AuthFailure.unauthenticated.status = 401) :=
  ⟨query_priority_no_fallback.1 (PyVal.str "a") (PyVal.str "b") (PyVal.str "c")
    (by decide),
   query_priority_no_fallback.2.2.2 id (hubAccepts "goodtoken") false noShare none
    ⟨some "badtoken", some "Bearer goodtoken", some "cookieval", none⟩
    "badtoken" "cookieval" rfl (by decide) rfl (by decide) (by decide)⟩

/-- C5: any error response from the hub identity exchange is treated
uniformly as `Unauthenticated` (401), for every 4xx/5xx transport status
and whichever credential location supplied the selected token. -/
theorem hub_error_uniform_unauthenticated (unwrap : String → String)
    (hub : PyVal → HubResponse) (jh5 : Bool) (share : User → List String)
    (ov : Option (List String)) (req : Request) (ck : String)
    (hck : req.cookiePrimary = some ck) (hckne : ck ≠ "")
    (hbad : (hub (unwrapVal unwrap (selectToken (apiKeyQuery req.queryToken)
        (oauth2Bearer req.authorizationHeader) (PyVal.str ck)))).isError = true) :
    get_current_user unwrap hub jh5 share ov req = .error .unauthenticated ∧
      AuthFailure.unauthenticated.status = 401 := by
  refine ⟨?_, rfl⟩
  rw [get_current_user_cookie_ok unwrap hub jh5 share ov req ck hck hckne]
  exact body_of_hub_error unwrap hub jh5 share ov _ _ _ hbad

theorem hub_error_uniform_unauthenticated_witness :
    get_current_user id (fun _ => ⟨503, demoUser⟩) false noShare none
        ⟨none, none, some "cookieval", none⟩ =
      .error .unauthenticated ∧ AuthFailure.unauthenticated.status = 401 :=
  hub_error_uniform_unauthenticated id (fun _ => ⟨503, demoUser⟩) false noShare none
    ⟨none, none, some "cookieval", none⟩ "cookieval" rfl (by decide) (by decide)

/-- C3: once a Principal is resolved from a successful exchange,
authorization succeeds exactly when its scope set meets the configured
AccessPolicy; a disjoint scope set yields `Unauthorized` (403); absent an
override the policy defaults to `access:services`. -/
theorem scope_intersection_authorization (unwrap : String → String)
    (hub : PyVal → HubResponse) (jh5 : Bool) (share : User → List String)
    (ov : Option (List String)) (req : Request) (ck : String) (u : User)
    (hck : req.cookiePrimary = some ck) (hckne : ck ≠ "")
    (hok : (hub (unwrapVal unwrap (selectToken (apiKeyQuery req.queryToken)
        (oauth2Bearer req.authorizationHeader) (PyVal.str ck)))).isError = false)
    (hu : (hub (unwrapVal unwrap (selectToken (apiKeyQuery req.queryToken)
        (oauth2Bearer req.authorizationHeader) (PyVal.str ck)))).user = u)
    (hP : accessScopes ov ≠ []) :
    (get_current_user unwrap hub jh5 share ov req = .ok (finalizeUser jh5 share u)
        ↔ ∃ s ∈ accessScopes ov, s ∈ u.scopes) ∧
    ((¬ ∃ s ∈ accessScopes ov, s ∈ u.scopes) →
      get_current_user unwrap hub jh5 share ov req = .error .unauthorized ∧
        AuthFailure.unauthorized.status = 403) ∧
    accessScopes none = ["access:services"] := by
  have hbody : get_current_user unwrap hub jh5 share ov req =
      (if (accessScopes ov).any
          (fun s => (finalizeUser jh5 share u).scopes.contains s) then
        Except.ok (finalizeUser jh5 share u)
      else Except.error AuthFailure.unauthorized) := by
    rw [get_current_user_cookie_ok unwrap hub jh5 share ov req ck hck hckne]
    simp only [get_current_user_body]
    rw [if_neg (selectToken_ne_none _ _ _)]
    simp [hok, hu]
  have hany : (accessScopes ov).any
      (fun s => (finalizeUser jh5 share u).scopes.contains s) = true ↔
      ∃ s ∈ accessScopes ov, s ∈ u.scopes := by
    simp [List.any_eq_true, finalizeUser_scopes]
  refine ⟨?_, ?_, rfl⟩
  · by_cases hc : (accessScopes ov).any
        (fun s => (finalizeUser jh5 share u).scopes.contains s) = true
    · rw [hbody, if_pos hc]
      simp [hany.mp hc]
    · rw [hbody, if_neg hc]
      constructor
      · intro h
        exact absurd h (by simp)
      · intro hex
        exact absurd (hany.mpr hex) hc
  · intro hex
    refine ⟨?_, rfl⟩
    rw [hbody, if_neg (fun hc => hex (hany.mp hc))]

theorem scope_intersection_authorization_witness :
    (get_current_user id hubAlwaysOk false noShare none
        ⟨none, none, some "cookieval", none⟩ =
          .ok (finalizeUser false noShare demoUser)
      ↔ ∃ s ∈ accessScopes none, s ∈ demoUser.scopes) ∧
    ((¬ ∃ s ∈ accessScopes none, s ∈ demoUser.scopes) →
      get_current_user id hubAlwaysOk false noShare none
          ⟨none, none, some "cookieval", none⟩ = .error .unauthorized ∧
        AuthFailure.unauthorized.status = 403) ∧
    accessScopes none = ["access:services"] :=
  scope_intersection_authorization id hubAlwaysOk false noShare none
    ⟨none, none, some "cookieval", none⟩ "cookieval" demoUser
    rfl (by decide) (by decide) rfl (by decide)

/-! ## Claim theorems: repository configuration loader -/

theorem validate_error_is_400 (repo : Repository) (e : HttpError)
    (h : validate_git_repository repo = .error e) : e.statusCode = 400 := by
  unfold validate_git_repository at h
  repeat' split at h
  all_goals first
    | (cases h; rfl)
    | simp_all

theorem validate_ok_conditions (repo : Repository)
    (h : validate_git_repository repo = .ok ()) :
    allowedSchemes.contains (urlScheme repo.url) = true ∧
    badUrlChars.any (fun c => repo.url.data.contains c) = false ∧
    (∀ r, repo.ref = some r → r ≠ "" →
      refCharClassOk r = true ∧ refDangerous r = false) := by
  unfold validate_git_repository at h
  repeat' split at h
  all_goals simp_all

/-- C6: a repository descriptor with a disallowed URL scheme, URL
injection characters, or a ref that fails the character class or carries
a dangerous pattern is rejected with a 400 error by validation, and the
clone outcome is the same error whatever the git runtime would have
done — no clone is attempted. -/
theorem validation_rejects_before_clone (repo : Repository)
    (hbad : allowedSchemes.contains (urlScheme repo.url) = false
      ∨ badUrlChars.any (fun c => repo.url.data.contains c) = true
      ∨ ∃ r, repo.ref = some r ∧ r ≠ "" ∧
          (refCharClassOk r = false ∨ refDangerous r = true)) :
    ∃ e, validate_git_repository repo = .error e ∧ e.statusCode = 400 ∧
      ∀ g : GitResult, clone_repo repo g = .error e := by
  cases hv : validate_git_repository repo with
  | ok u =>
    cases u
    obtain ⟨h1, h2, h3⟩ := validate_ok_conditions repo hv
    rcases hbad with hb | hb | ⟨r, hr, hrne, hb⟩
    · rw [h1] at hb
      exact absurd hb (by decide)
    · rw [h2] at hb
      exact absurd hb (by decide)
    · obtain ⟨hc, hd⟩ := h3 r hr hrne
      rcases hb with hb | hb
      · rw [hc] at hb
        exact absurd hb (by decide)
      · rw [hd] at hb
        exact absurd hb (by decide)
  | error e =>
    refine ⟨e, rfl, validate_error_is_400 repo e hv, fun g => ?_⟩
    unfold clone_repo
    rw [hv]

theorem validation_rejects_before_clone_witness :
    ∃ e, validate_git_repository ⟨"https://github.com/org/app", some "main;rm", "."⟩ =
        .error e ∧ e.statusCode = 400 ∧
      ∀ g : GitResult,
        clone_repo ⟨"https://github.com/org/app", some "main;rm", "."⟩ g = .error e :=
  validation_rejects_before_clone ⟨"https://github.com/org/app", some "main;rm", "."⟩
    (Or.inr (Or.inr ⟨"main;rm", rfl, by decide, Or.inl (by decide)⟩))

/-- C7 counterexample: a missing config path inside the cloned
repository is surfaced as a 400 Bad Request, not the 404 the claim
states. -/
theorem missing_config_path_yields_400 :
    load_app_config ⟨"https://github.com/a/b", some "main", "conda"⟩
        GitResult.ok false =
      .error ⟨400, "Path 'conda' doesn't exists in the repository."⟩ ∧
    (400 : Nat) ≠ 404 :=
  ⟨rfl, by decide⟩

/-- C7 amended: a missing repository and a missing ref are classified as
`NotFound` (404) by the clone-failure handler, while a missing config
path is a 400 Bad Request. -/
theorem notfound_classification :
    (∀ (repo : Repository) (msg : String),
      strContains "Authentication failed" msg = false →
      strContains "fatal: could not read" msg = false →
      strContains "Repository not found" msg = true →
      classifyGitFailure repo (.commandError msg) =
        .error ⟨404, "Repository not found: " ++ repo.url⟩) ∧
    (∀ (repo : Repository) (msg r : String),
      repo.ref = some r → r ≠ "" →
      strContains "Authentication failed" msg = false →
      strContains "fatal: could not read" msg = false →
      strContains "Repository not found" msg = false →
      strContains "does not exist" msg = false →
      strContains "not found" msg = true →
      classifyGitFailure repo (.commandError msg) =
        .error ⟨404, "Branch or ref not found in repository"⟩) ∧
    (∀ repo : Repository,
      check_conda_project_config_directory_exists repo false =
        .error ⟨400, "Path '" ++ repo.config_directory ++
          "' doesn't exists in the repository."⟩) := by
  refine ⟨?_, ?_, ?_⟩
  · intro repo msg hA hB hfound
    simp [classifyGitFailure, hA, hB, hfound]
  · intro repo msg r hr hrne hA hB hC hD hfound
    simp [classifyGitFailure, hA, hB, hC, hD, hfound, hr, hrne]
  · intro repo
    rfl

theorem notfound_classification_witness :
    classifyGitFailure ⟨"https://github.com/a/b", some "main", "."⟩
        (.commandError "remote: Repository not found") =
      .error ⟨404, "Repository not found: " ++ "https://github.com/a/b"⟩ ∧
    classifyGitFailure ⟨"https://github.com/a/b", some "main", "."⟩
        (.commandError "fatal: ref was not found") =
      .error ⟨404, "Branch or ref not found in repository"⟩ ∧
    check_conda_project_config_directory_exists
        ⟨"https://github.com/a/b", some "main", "conda"⟩ false =
      .error ⟨400, "Path '" ++ "conda" ++ "' doesn't exists in the repository."⟩ :=
  ⟨notfound_classification.1 ⟨"https://github.com/a/b", some "main", "."⟩
      "remote: Repository not found" (by decide) (by decide) (by decide),
   notfound_classification.2.1 ⟨"https://github.com/a/b", some "main", "."⟩
      "fatal: ref was not found" "main" rfl (by decide)
      (by decide) (by decide) (by decide) (by decide) (by decide),
   notfound_classification.2.2 ⟨"https://github.com/a/b", some "main", "conda"⟩⟩

/-! ## Helper lemmas about the Command Synthesizer -/

theorem strData_append (s t : String) : (s ++ t).data = s.data ++ t.data := rfl

theorem strData_empty : ("" : String).data = [] := rfl

theorem take3_append_long (l1 l2 : List Char) (hlen : 3 ≤ l1.length) :
    (l1 ++ l2).take 3 = l1.take 3 := by
  rw [List.take_append_eq_append_take, Nat.sub_eq_zero_of_le hlen,
    List.take_zero, List.append_nil]

theorem flag_data_take3 (n : String) :
    ("--conda-env=" ++ n).data.take 3 = ['-', '-', 'c'] := by
  rw [strData_append, take3_append_long _ _ (by decide)]
  decide

theorem ne_flag_of_take3 (s : String) (h : s.data.take 3 ≠ ['-', '-', 'c']) :
    ∀ n, s ≠ "--conda-env=" ++ n := by
  intro n he
  rw [he, flag_data_take3] at h
  exact h rfl

theorem conda_flag_inj (a b : String)
    (h : "--conda-env=" ++ a = "--conda-env=" ++ b) : a = b := by
  have hd : "--conda-env=".data ++ a.data = "--conda-env=".data ++ b.data := by
    have := congrArg String.data h
    simpa [strData_append] using this
  exact String.ext (List.append_cancel_left hd)

theorem mem_insertConda (y : String) (conda rendered : List String) :
    y ∈ insertConda conda rendered ↔ y ∈ conda ∨ y ∈ rendered := by
  cases rendered <;> simp [insertConda] <;> tauto

theorem count_insertConda (y : String) (conda rendered : List String) :
    (insertConda conda rendered).count y = conda.count y + rendered.count y := by
  cases rendered with
  | nil => simp [insertConda]
  | cons x rest =>
    simp [insertConda, List.count_cons, List.count_append]
    omega

/-- The conda flag's membership in `condaArgs`. -/
theorem mem_condaArgs_iff (config : AppConfiguration) (name : String) :
    ("--conda-env=" ++ name) ∈ condaArgs config ↔
      config.skip_conda = false ∧ config.conda_env = some name := by
  unfold condaArgs
  cases hsk : config.skip_conda with
  | true => simp
  | false =>
    cases hce : config.conda_env with
    | none => simp
    | some nm =>
      constructor
      · intro h
        have h2 : "--conda-env=" ++ name = "--conda-env=" ++ nm := by
          simpa using h
        have h3 := conda_flag_inj _ _ h2
        subst h3
        simp
      · intro h
        have h3 : nm = name := Option.some.inj h.2
        subst h3
        simp

/-- Generic conda-flag facts for an argv assembled from `condaArgs` and
flag-free framework arguments. -/
theorem conda_flag_assembled (config : AppConfiguration) (name : String)
    (args rest : List String)
    (hmem : ∀ y, y ∈ args ↔ y ∈ condaArgs config ∨ y ∈ rest)
    (hcount : ∀ y, args.count y = (condaArgs config).count y + rest.count y)
    (hrest : ∀ el ∈ rest, el.data.take 3 ≠ ['-', '-', 'c']) :
    (("--conda-env=" ++ name) ∈ args ↔
      config.skip_conda = false ∧ config.conda_env = some name) ∧
    (config.skip_conda = false → config.conda_env = some name →
      args.count ("--conda-env=" ++ name) = 1) ∧
    (config.skip_conda = true → ("--conda-env=" ++ name) ∉ args) := by
  have hnot : ("--conda-env=" ++ name) ∉ rest := by
    intro hm
    exact ne_flag_of_take3 _ (hrest _ hm) name rfl
  refine ⟨?_, ?_, ?_⟩
  · rw [hmem]
    constructor
    · intro h
      rcases h with h | h
      · exact (mem_condaArgs_iff config name).mp h
      · exact absurd h hnot
    · intro h
      exact Or.inl ((mem_condaArgs_iff config name).mpr h)
  · intro hsk hce
    rw [hcount, List.count_eq_zero_of_not_mem hnot]
    unfold condaArgs
    rw [hsk, hce]
    simp
  · intro hsk hm
    rcases (hmem _).mp hm with h | h
    · rw [(mem_condaArgs_iff config name).mp h |>.1] at hsk
      exact Bool.noConfusion hsk
    · exact hnot h

/-- Every rendered built-in template element differs from a conda flag in
its first three characters, as do the fixed custom-path elements. -/
theorem rendered_take3 (fw : Framework) (port : Nat) (pyexec fp : String)
    (hpy : pyexec.data.take 3 ≠ ['-', '-', 'c'])
    (hfp : fp.data.take 3 ≠ ['-', '-', 'c']) :
    ∀ el ∈ (frameworkTemplate fw).map (renderElem port pyexec fp),
      el.data.take 3 ≠ ['-', '-', 'c'] := by
  intro el hel
  cases fw <;>
    simp only [frameworkTemplate, List.map_cons, List.map_nil, List.mem_cons,
      List.not_mem_nil, or_false] at hel <;>
  · first
    | (obtain rfl | rfl | rfl | rfl | rfl | rfl := hel)
    | (obtain rfl | rfl | rfl | rfl | rfl := hel)
    | (obtain rfl | rfl | rfl := hel)
    all_goals
      simp only [renderElem, List.map_cons, List.map_nil, concatAll, renderPiece,
        strData_append, strData_empty, List.append_nil]
    all_goals
      first
      | exact hpy
      | exact hfp
      | decide
      | (rw [take3_append_long _ _ (by decide)]; decide)

/-- Characters of a rendered element, when the template's literal pieces
are brace-free and so are the substituted values. -/
def pieceNoBrace : Piece → Prop
  | .lit s => ∀ c ∈ s.data, c ≠ '{'
  | _ => True

theorem renderElem_no_brace (port : Nat) (pyexec fp : String)
    (hpy : ∀ c ∈ pyexec.data, c ≠ '{') (hfpb : ∀ c ∈ fp.data, c ≠ '{') :
    ∀ pieces : List Piece, (∀ p ∈ pieces, pieceNoBrace p) →
      ∀ c ∈ (renderElem port pyexec fp pieces).data, c ≠ '{' := by
  intro pieces
  induction pieces with
  | nil =>
    intro _ c hc
    simp [renderElem, concatAll, strData_empty] at hc
  | cons p rest ih =>
    intro hall c hc
    simp only [renderElem, List.map_cons, concatAll, strData_append] at hc
    rcases List.mem_append.mp hc with h | h
    · have hp := hall p (List.mem_cons_self p rest)
      cases p with
      | lit s => exact hp c h
      | portSlot => exact natChars_ne_brace port c h
      | pythonExecSlot => exact hpy c h
      | filepathSlot => exact hfpb c h
    · exact ih (fun q hq => hall q (List.mem_cons_of_mem p hq)) c h

theorem template_pieces_no_brace (fw : Framework) :
    ∀ pieces ∈ frameworkTemplate fw, ∀ p ∈ pieces, pieceNoBrace p := by
  intro pieces hp p hpp
  cases fw <;> fin_cases hp <;> fin_cases hpp <;> simp [pieceNoBrace] <;> decide

theorem no_port_token_of_no_brace (l : List Char) (h : ∀ c ∈ l, c ≠ '{') :
    hasToken "{port}".data l = false :=
  hasToken_eq_false_of_not_mem '{' _ l (by decide) (fun hm => h _ hm rfl)

/-! ## Claim theorems: Command Synthesizer -/

/-- C1 counterexample: a valid custom configuration with a conda
environment set and `skip_conda` false synthesizes a four-element argv
carrying the conda flag, so the argv is not exactly the `/bin/sh -c`
triple the claim states for every valid custom configuration. -/
theorem custom_argv_not_exactly_triple :
    synthesize ⟨Framework.custom, some "python app.py --port {port}", some "",
        some "myenv", false, []⟩ ⟨8888, "python3", "", "", 1, ""⟩ =
      .ok ["--conda-env=myenv", "/bin/sh", "-c", "python app.py --port {port}"] ∧
    (["--conda-env=myenv", "/bin/sh", "-c", "python app.py --port {port}"] ≠
      ["/bin/sh", "-c", "python app.py --port {port}"]) :=
  ⟨rfl, by decide⟩

/-- C1 amended: for every valid custom configuration the synthesized
argv is the (possibly empty) conda flag followed by exactly
`["/bin/sh", "-c", body]`, where `body` is the literal `custom_command`
with `\x7bport\x7d` left unsubstituted; when `skip_conda` is set or
`conda_env` is unset the argv is exactly that triple. -/
theorem custom_argv_literal_body (config : AppConfiguration) (ctx : SpawnContext)
    (cmd : String) (hfw : config.framework = .custom)
    (hcmd : config.custom_command = some cmd) (hne : cmd ≠ "") :
    synthesize config ctx = .ok (condaArgs config ++ ["/bin/sh", "-c", cmd]) ∧
    (config.skip_conda = true ∨ config.conda_env = none →
      synthesize config ctx = .ok ["/bin/sh", "-c", cmd]) := by
  obtain ⟨fw, cc, fpo, ce, sk, env⟩ := config
  subst hfw
  subst hcmd
  constructor
  · simp [synthesize, hne]
  · intro hd
    rcases hd with hsk | hce
    · subst hsk
      simp [synthesize, hne, condaArgs]
    · subst hce
      cases sk <;> simp [synthesize, hne, condaArgs]

theorem custom_argv_literal_body_witness :
    synthesize ⟨Framework.custom, some "python app.py --port {port}", some "",
        none, true, []⟩ ⟨8888, "python3", "", "", 1, ""⟩ =
      .ok (condaArgs ⟨Framework.custom, some "python app.py --port {port}", some "",
        none, true, []⟩ ++ ["/bin/sh", "-c", "python app.py --port {port}"]) ∧
    ((⟨Framework.custom, some "python app.py --port {port}", some "",
        none, true, []⟩ : AppConfiguration).skip_conda = true ∨
      (⟨Framework.custom, some "python app.py --port {port}", some "",
        none, true, []⟩ : AppConfiguration).conda_env = none →
      synthesize ⟨Framework.custom, some "python app.py --port {port}", some "",
          none, true, []⟩ ⟨8888, "python3", "", "", 1, ""⟩ =
        .ok ["/bin/sh", "-c", "python app.py --port {port}"]) :=
  custom_argv_literal_body
    ⟨Framework.custom, some "python app.py --port {port}", some "", none, true, []⟩
    ⟨8888, "python3", "", "", 1, ""⟩ "python app.py --port {port}"
    rfl rfl (by decide)

/-- C4: an argv element equal to `--conda-env=<name>` appears exactly
when `skip_conda` is false and `conda_env` is `<name>`, in which case it
appears exactly once; `skip_conda` suppresses the flag for every value
of `conda_env`.  The hygiene hypotheses say the executable path, the
script path and the custom command do not themselves spell a conda
flag. -/
theorem conda_flag_emission (config : AppConfiguration) (ctx : SpawnContext)
    (args : List String) (name : String)
    (hok : synthesize config ctx = .ok args)
    (hpy : ctx.python_executable.data.take 3 ≠ ['-', '-', 'c'])
    (hfp : ∀ fp, config.filepath = some fp → fp.data.take 3 ≠ ['-', '-', 'c'])
    (hcmd : ∀ cmd, config.custom_command = some cmd →
      cmd.data.take 3 ≠ ['-', '-', 'c']) :
    (("--conda-env=" ++ name) ∈ args ↔
      config.skip_conda = false ∧ config.conda_env = some name) ∧
    (config.skip_conda = false → config.conda_env = some name →
      args.count ("--conda-env=" ++ name) = 1) ∧
    (config.skip_conda = true → ("--conda-env=" ++ name) ∉ args) := by
  obtain ⟨fw, cc, fpo, ce, sk, env⟩ := config
  cases fw <;> simp only [synthesize] at hok
  case custom =>
    cases cc with
    | none => exact absurd hok (by simp)
    | some cmd =>
      dsimp only [] at hok
      by_cases hc : cmd = ""
      · rw [if_pos hc] at hok
        exact absurd hok (by simp)
      · rw [if_neg hc] at hok
        injection hok with h
        subst h
        refine conda_flag_assembled _ name _ ["/bin/sh", "-c", cmd]
          (fun y => by simp) (fun y => by simp [List.count_append]) ?_
        intro el hel
        simp only [List.mem_cons, List.not_mem_nil, or_false] at hel
        rcases hel with rfl | rfl | rfl
        · decide
        · decide
        · exact hcmd _ rfl
  all_goals
    cases fpo with
    | none => exact absurd hok (by simp)
    | some fp =>
      dsimp only [] at hok
      injection hok with h
      subst h
      refine conda_flag_assembled _ name _ _
        (fun y => mem_insertConda y _ _) (fun y => count_insertConda y _ _) ?_
      exact rendered_take3 _ ctx.port ctx.python_executable fp hpy (hfp fp rfl)

theorem conda_flag_emission_witness :
    (("--conda-env=" ++ "myenv") ∈
        ["--conda-env=myenv", "/bin/sh", "-c", "python app.py --port {port}"] ↔
      (⟨Framework.custom, some "python app.py --port {port}", some "",
        some "myenv", false, []⟩ : AppConfiguration).skip_conda = false ∧
      (⟨Framework.custom, some "python app.py --port {port}", some "",
        some "myenv", false, []⟩ : AppConfiguration).conda_env = some "myenv") ∧
    ((⟨Framework.custom, some "python app.py --port {port}", some "",
        some "myenv", false, []⟩ : AppConfiguration).skip_conda = false →
      (⟨Framework.custom, some "python app.py --port {port}", some "",
        some "myenv", false, []⟩ : AppConfiguration).conda_env = some "myenv" →
      (["--conda-env=myenv", "/bin/sh", "-c",
        "python app.py --port {port}"].count ("--conda-env=" ++ "myenv")) = 1) ∧
    ((⟨Framework.custom, some "python app.py --port {port}", some "",
        some "myenv", false, []⟩ : AppConfiguration).skip_conda = true →
      ("--conda-env=" ++ "myenv") ∉
        ["--conda-env=myenv", "/bin/sh", "-c", "python app.py --port {port}"]) :=
  conda_flag_emission
    ⟨Framework.custom, some "python app.py --port {port}", some "",
      some "myenv", false, []⟩
    ⟨8888, "python3", "", "", 1, ""⟩
    ["--conda-env=myenv", "/bin/sh", "-c", "python app.py --port {port}"]
    "myenv" rfl (by decide)
    (fun fp h => by
      obtain rfl := Option.some.inj h
      decide)
    (fun cmd h => by
      obtain rfl := Option.some.inj h
      decide)

/-- C8: for every built-in framework configuration the synthesized argv
is the registry template with every port slot rendered to the decimal
context port (identically at each occurrence, since a single renderer is
mapped over the template), and no `\x7bport\x7d` substring remains in any
argv element, provided the substituted executable path, script path and
conda environment name are brace-free. -/
theorem builtin_port_substitution (config : AppConfiguration) (ctx : SpawnContext)
    (fp : String)
    (hfw : config.framework ≠ .custom)
    (hfp : config.filepath = some fp)
    (hpy : ∀ c ∈ ctx.python_executable.data, c ≠ '{')
    (hfpb : ∀ c ∈ fp.data, c ≠ '{')
    (hce : ∀ nm, config.conda_env = some nm → ∀ c ∈ nm.data, c ≠ '{') :
    synthesize config ctx = .ok (insertConda (condaArgs config)
        ((frameworkTemplate config.framework).map
          (renderElem ctx.port ctx.python_executable fp))) ∧
    renderPiece ctx.port ctx.python_executable fp Piece.portSlot = natStr ctx.port ∧
    (∀ el ∈ insertConda (condaArgs config)
        ((frameworkTemplate config.framework).map
          (renderElem ctx.port ctx.python_executable fp)),
      hasToken "{port}".data el.data = false) := by
  refine ⟨?_, rfl, ?_⟩
  · obtain ⟨fw, cc, fpo, ce, sk, env⟩ := config
    subst hfp
    cases fw
    case custom => exact absurd rfl hfw
    all_goals simp [synthesize]
  · intro el hel
    rw [mem_insertConda] at hel
    rcases hel with h | h
    · refine no_port_token_of_no_brace _ ?_
      revert h
      unfold condaArgs
      cases hsk : config.skip_conda with
      | true =>
        intro h
        exact absurd h (List.not_mem_nil _)
      | false =>
        cases hcee : config.conda_env with
        | none =>
          intro h
          exact absurd h (List.not_mem_nil _)
        | some nm =>
          intro h
          have hel2 : el = "--conda-env=" ++ nm := by simpa using h
          subst hel2
          intro c hc
          rw [strData_append] at hc
          rcases List.mem_append.mp hc with h2 | h2
          · exact (by decide : ∀ c ∈ "--conda-env=".data, c ≠ '{') c h2
          · exact hce nm hcee c h2
    · obtain ⟨pieces, hpieces, rfl⟩ := List.mem_map.mp h
      exact no_port_token_of_no_brace _
        (renderElem_no_brace ctx.port ctx.python_executable fp hpy hfpb pieces
          (template_pieces_no_brace _ pieces hpieces))

theorem builtin_port_substitution_witness :
    synthesize ⟨Framework.streamlit, none, some "app.py", none, true, []⟩
        ⟨8888, "python3", "", "", 1, ""⟩ =
      .ok (insertConda
        (condaArgs ⟨Framework.streamlit, none, some "app.py", none, true, []⟩)
        ((frameworkTemplate
            (⟨Framework.streamlit, none, some "app.py", none, true,
              []⟩ : AppConfiguration).framework).map
          (renderElem 8888 "python3" "app.py"))) ∧
    renderPiece 8888 "python3" "app.py" Piece.portSlot = natStr 8888 ∧
    (∀ el ∈ insertConda
        (condaArgs ⟨Framework.streamlit, none, some "app.py", none, true, []⟩)
        ((frameworkTemplate
            (⟨Framework.streamlit, none, some "app.py", none, true,
              []⟩ : AppConfiguration).framework).map
          (renderElem 8888 "python3" "app.py")),
      hasToken "{port}".data el.data = false) :=
  builtin_port_substitution
    ⟨Framework.streamlit, none, some "app.py", none, true, []⟩
    ⟨8888, "python3", "", "", 1, ""⟩ "app.py"
    (by decide) rfl (by decide) (by decide)
    (fun nm h => absurd h (by simp))

end JHubApps
